import Mathlib

/-!
Verification of the CraveCart session-token coordinator against its
specification.  The definitions below are a shallow embedding of the
authentication code of the repository:

* `UserService` embeds `src/web/restaurant-portal/src/services/userService.ts`
  (the axios request/response interceptors with the refresh-subscriber queue,
  and the `refreshToken` method with its `getCurrentUser` fallback).
* `CustomerAuth` embeds `src/web/customer-portal/src/contexts/AuthContext.tsx`
  (`login`, `logout`, `loadUser`, `checkTokenExpiration`, `isAuthenticated`).
* `AdminAuth` embeds the admin-portal `AuthContext` found in
  `src/unnamed/part_000` (`logout` with its try/catch/finally).

JavaScript is single threaded: the synchronous block of interceptor code that
runs between two `await` points is atomic.  The interceptor state machine is
therefore modelled as a fold of atomic events over the coordinator state: a
request observing an HTTP 401, or the completion (success or failure) of the
in-flight refresh call.
-/

namespace UserService

/-- An axios request config as far as the interceptors inspect it:
`originalRequest` carries a mutable `_retry` flag and an `Authorization`
header (`auth`); `id` identifies the caller's promise. -/
structure Request where
  id : Nat
  _retry : Bool
  auth : Option String
  deriving DecidableEq, Repr

/-- How the promise of one failed request is settled by the interceptor:
`replayed t` — the request was re-issued with `Authorization: Bearer t`;
`rejected` — the promise was rejected with the refresh error;
`surfaced` — the original 401 error was passed through to the caller. -/
inductive Outcome where
  | replayed (token : String)
  | rejected
  | surfaced
  deriving DecidableEq, Repr

/-- The coordinator state of the `UserService` singleton:
`isRefreshing` and `refreshSubscribers` are the instance fields of the class,
`token` is `localStorage.getItem("token")`, `inFlightRequest` is the
`originalRequest` captured by the 401 handler that is awaiting
`this.refreshToken`, `refreshCalls` counts invocations of the refresh network
call (ghost), and `resolved` records settled promises in settlement order
(ghost). -/
structure CoordState where
  isRefreshing : Bool
  refreshSubscribers : List Request
  token : Option String
  inFlightRequest : Option Request
  refreshCalls : Nat
  resolved : List (Nat × Outcome)
  deriving DecidableEq, Repr

/-- The request interceptor: attach `Bearer <token>` from storage when a token
is present, otherwise return the config unchanged. -/
def requestInterceptor (stored : Option String) (config : Request) : Request :=
  match stored with
  | some t => { config with auth := some ("Bearer " ++ t) }
  | none => config

/-- The synchronous part of the response interceptor's 401 branch.
Mirrors `setupInterceptors`: a request whose `_retry` flag is already set
falls through to `Promise.reject(error)`; while `isRefreshing` the request is
pushed onto `refreshSubscribers`; otherwise the handler sets `_retry` and
`isRefreshing` and issues the refresh call — unless no token is stored, in
which case the `throw new Error("No token found")` lands in the catch block,
which resets `isRefreshing`, removes the stored token and rejects. -/
def handle401 (s : CoordState) (req : Request) : CoordState :=
  if req._retry then
    { s with resolved := s.resolved ++ [(req.id, Outcome.surfaced)] }
  else if s.isRefreshing then
    { s with refreshSubscribers := s.refreshSubscribers ++ [req] }
  else
    match s.token with
    | none =>
        { s with token := none,
                 resolved := s.resolved ++ [(req.id, Outcome.rejected)] }
    | some _ =>
        { s with isRefreshing := true,
                 inFlightRequest := some { req with _retry := true },
                 refreshCalls := s.refreshCalls + 1 }

/-- Completion of a successful refresh call: the new token is stored,
`notifySubscribersAboutTokenRefresh` invokes every queued callback in queue
order (each sets `Authorization: Bearer <newToken>` and re-issues its
request) and clears the queue, `isRefreshing` is reset, and the initiating
request is re-issued with the new token. -/
def completeRefreshOk (s : CoordState) (newToken : String) : CoordState :=
  match s.inFlightRequest with
  | none => s
  | some orig =>
      { s with
          token := some newToken,
          resolved := s.resolved
            ++ s.refreshSubscribers.map (fun r => (r.id, Outcome.replayed newToken))
            ++ [(orig.id, Outcome.replayed newToken)],
          refreshSubscribers := [],
          isRefreshing := false,
          inFlightRequest := none }

/-- Completion of a failed refresh call: the catch block resets
`isRefreshing`, removes the stored token and rejects the initiating request's
promise.  `refreshSubscribers` is not touched: the queued callbacks are
neither invoked nor rejected. -/
def completeRefreshFail (s : CoordState) : CoordState :=
  match s.inFlightRequest with
  | none => s
  | some orig =>
      { s with
          isRefreshing := false,
          token := none,
          resolved := s.resolved ++ [(orig.id, Outcome.rejected)],
          inFlightRequest := none }

/-- Atomic events interleaved on the JavaScript event loop. -/
inductive Event where
  | auth401 (req : Request)
  | refreshOk (newToken : String)
  | refreshFail
  deriving DecidableEq, Repr

/-- One atomic step of the interceptor state machine. -/
def step (s : CoordState) : Event → CoordState
  | Event.auth401 req => handle401 s req
  | Event.refreshOk t => completeRefreshOk s t
  | Event.refreshFail => completeRefreshFail s

/-- Run a sequence of events from a state. -/
def run (s : CoordState) (es : List Event) : CoordState :=
  es.foldl step s

/-- `UserService.refreshToken`: POST `/auth/refresh-token`; on failure, fall
back to `getCurrentUser` and, when that succeeds, resolve with the old token
unchanged; when both fail, rethrow the refresh error.  `refreshResult` is the
outcome of the refresh endpoint (`some newToken` or failure) and `meSucceeds`
the outcome of the fallback `GET /auth/me`; `none` models the rethrow. -/
def refreshToken (refreshResult : Option String) (meSucceeds : Bool)
    (token : String) : Option String :=
  match refreshResult with
  | some newToken => some newToken
  | none => if meSucceeds then some token else none

/-- An `Active` session state: a stored token, no refresh in flight, empty
queue. -/
def activeState : CoordState :=
  { isRefreshing := false, refreshSubscribers := [], token := some "tok0",
    inFlightRequest := none, refreshCalls := 0, resolved := [] }

/-- First concurrent request (fresh: `_retry` unset). -/
def req1 : Request := { id := 1, _retry := false, auth := none }

/-- Second concurrent request (fresh: `_retry` unset). -/
def req2 : Request := { id := 2, _retry := false, auth := none }

end UserService

namespace CustomerAuth

/-- The user profile as held by the customer-portal context. -/
structure User where
  id : String
  name : String
  deriving DecidableEq, Repr

/-- The customer-portal `AuthProvider` state: `user`, `token` (React state and
the mirrored `localStorage` entry) and `error`. -/
structure AuthState where
  user : Option User
  token : Option String
  error : Option String
  deriving DecidableEq, Repr

/-- `isAuthenticated: !!token && !!user` from the provider value. -/
def isAuthenticated (s : AuthState) : Bool :=
  s.token.isSome && s.user.isSome

/-- The body of an error response, as far as `login` reads it
(`error.response?.data?.message`). -/
structure ErrorResponse where
  status : Nat
  message : Option String
  deriving DecidableEq, Repr

/-- An axios error: `response` is absent on a transport failure and present
(with a status and an optional body message) when the server answered. -/
structure AxiosError where
  response : Option ErrorResponse
  deriving DecidableEq, Repr

/-- `error.response?.data?.message || "Login failed"`: the message string the
catch block surfaces (an empty string is falsy in JavaScript). -/
def loginErrorMessage (e : AxiosError) : String :=
  match e.response with
  | some r =>
      match r.message with
      | some m => if m = "" then "Login failed" else m
      | none => "Login failed"
  | none => "Login failed"

/-- Outcome of the `POST /auth/login` call. -/
inductive LoginResult where
  | ok (token : String) (user : User)
  | fail (e : AxiosError)
  deriving DecidableEq, Repr

/-- `login(email, password)`: on success store the user and the new token
(state and `localStorage`) and return `true`; on failure set `error` to the
surfaced message string and return `false`, touching neither `user` nor
`token`. -/
def login (r : LoginResult) (s : AuthState) : AuthState × Bool :=
  match r with
  | LoginResult.ok newToken userData =>
      ({ user := some userData, token := some newToken, error := none }, true)
  | LoginResult.fail e =>
      ({ s with error := some (loginErrorMessage e) }, false)

/-- `logout()`: clear `user` and `token` (state and `localStorage`); no
network call is made. -/
def logout (s : AuthState) : AuthState :=
  { s with user := none, token := none }

/-- The `loadUser` effect: when a token is present and no user is loaded,
`GET /auth/me`; on success install the fetched profile, on failure remove the
persisted token. `fetchResult` is the outcome of that request. -/
def loadUser (fetchResult : Option User) (s : AuthState) : AuthState :=
  if s.token.isSome && s.user.isNone then
    match fetchResult with
    | some u => { s with user := some u }
    | none => { s with token := none }
  else s

/-- A stored access token as `checkTokenExpiration` sees it: `decodedExp` is
the result of `JSON.parse(atob(token.split(".")[1])).exp` — the expiry claim
in epoch seconds, or `none` when decoding throws. -/
structure JwtToken where
  decodedExp : Option Int
  deriving DecidableEq, Repr

/-- `checkTokenExpiration` computed value (the effect sets
`sessionTimeRemaining` to it): with no token, `null`; with an undecodable
token the catch block yields `null`; otherwise
`remaining = Math.floor((exp * 1000 - Date.now()) / 1000)` clamped by
`remaining > 0 ? remaining : 0`.  `now` is `Date.now()` in milliseconds. -/
def checkTokenExpiration (token : Option JwtToken) (now : Int) : Option Int :=
  match token with
  | none => none
  | some t =>
      match t.decodedExp with
      | none => none
      | some exp =>
          let expiryTime := exp * 1000
          let remaining := (expiryTime - now).fdiv 1000
          some (if remaining > 0 then remaining else 0)

/-- The `NoSession` state of the customer portal. -/
def noSession : AuthState := { user := none, token := none, error := none }

end CustomerAuth

namespace AdminAuth

/-- The admin-portal (`src/unnamed/part_000`) auth state: the three
`sessionStorage` keys, the `isAuthenticated` flag, and a ghost counter of
server-side logout calls. -/
structure AdminState where
  adminToken : Option String
  refreshTokenStored : Option String
  adminUser : Option String
  isAuthenticated : Bool
  serverLogoutCalls : Nat
  deriving DecidableEq, Repr

/-- `logout()`: the try block posts to the logout endpoint when a token is
stored (its success or failure `serverCallOk` is swallowed by the catch
block); the finally block always removes the three storage keys and clears
the state. -/
def logout (_serverCallOk : Bool) (s : AdminState) : AdminState :=
  let afterTry :=
    if s.adminToken.isSome then
      { s with serverLogoutCalls := s.serverLogoutCalls + 1 }
    else s
  { afterTry with
      adminToken := none, refreshTokenStored := none, adminUser := none,
      isAuthenticated := false }

end AdminAuth

namespace UserService

theorem run_nil (s : CoordState) : run s [] = s := rfl

theorem run_cons (s : CoordState) (e : Event) (es : List Event) :
    run s (e :: es) = run (step s e) es := rfl

theorem run_append (s : CoordState) (es fs : List Event) :
    run s (es ++ fs) = run (run s es) fs := by
  simp [run, List.foldl_append]

theorem handle401_fresh_refreshing (s : CoordState) (r : Request)
    (hRefr : s.isRefreshing = true) (hr : r._retry = false) :
    handle401 s r = { s with refreshSubscribers := s.refreshSubscribers ++ [r] } := by
  simp [handle401, hr, hRefr]

/-- While a refresh is in flight, a burst of fresh 401 failures only appends
the failing requests to the subscriber queue, in arrival order. -/
theorem run_enqueue (s : CoordState) (reqs : List Request)
    (hRefr : s.isRefreshing = true)
    (hFresh : ∀ r ∈ reqs, r._retry = false) :
    run s (reqs.map Event.auth401) =
      { s with refreshSubscribers := s.refreshSubscribers ++ reqs } := by
  induction reqs generalizing s with
  | nil => simp [run]
  | cons r rest ih =>
      have hr : r._retry = false := hFresh r (List.mem_cons_self r rest)
      have hrest : ∀ q ∈ rest, q._retry = false := fun q hq =>
        hFresh q (List.mem_cons_of_mem r hq)
      rw [List.map_cons, run_cons]
      show run (handle401 s r) _ = _
      rw [handle401_fresh_refreshing s r hRefr hr,
        ih { s with refreshSubscribers := s.refreshSubscribers ++ [r] } hRefr hrest]
      simp [List.append_assoc]

/-- A fresh 401 observed in an idle state with a stored token initiates the
refresh: `_retry` is set on the request before the refresh call is issued. -/
theorem handle401_initiate (s : CoordState) (r : Request) (t : String)
    (hIdle : s.isRefreshing = false) (hTok : s.token = some t)
    (hr : r._retry = false) :
    handle401 s r =
      { s with isRefreshing := true,
               inFlightRequest := some { r with _retry := true },
               refreshCalls := s.refreshCalls + 1 } := by
  simp [handle401, hr, hIdle, hTok]

end UserService

/-- C1 (amended): from an `Active` state (stored token, no refresh in
flight), a burst of N = 1 + |rest| fresh authentication failures issues
exactly one refresh network call (every later failure is enqueued onto the
same subscriber queue, so at most one refresh is ever in flight), and when
that single call completes successfully every one of the N requests is
resolved.  The unamended claim — that all N resolve after the call completes
regardless of its outcome — fails on the refresh-failure branch, see the
counterexample. -/
theorem c1_single_refresh_all_resolve_on_success
    (s : UserService.CoordState) (r : UserService.Request)
    (rest : List UserService.Request) (t newTok : String)
    (hIdle : s.isRefreshing = false) (hTok : s.token = some t)
    (hr : r._retry = false) (hrest : ∀ q ∈ rest, q._retry = false) :
    (UserService.run s ((r :: rest).map UserService.Event.auth401)).refreshCalls =
      s.refreshCalls + 1 ∧
    (UserService.run s ((r :: rest).map UserService.Event.auth401)).refreshSubscribers =
      s.refreshSubscribers ++ rest ∧
    (UserService.run s ((r :: rest).map UserService.Event.auth401 ++
        [UserService.Event.refreshOk newTok])).refreshCalls = s.refreshCalls + 1 ∧
    ∀ q ∈ r :: rest,
      q.id ∈ (UserService.run s ((r :: rest).map UserService.Event.auth401 ++
          [UserService.Event.refreshOk newTok])).resolved.map Prod.fst := by
  have hmid : UserService.run s ((r :: rest).map UserService.Event.auth401) =
      { s with isRefreshing := true,
               inFlightRequest := some { r with _retry := true },
               refreshCalls := s.refreshCalls + 1,
               refreshSubscribers := s.refreshSubscribers ++ rest } := by
    rw [List.map_cons, UserService.run_cons]
    show UserService.run (UserService.handle401 s r) _ = _
    rw [UserService.handle401_initiate s r t hIdle hTok hr]
    rw [UserService.run_enqueue
      { s with isRefreshing := true,
               inFlightRequest := some { r with _retry := true },
               refreshCalls := s.refreshCalls + 1 } rest rfl hrest]
  have hfin : UserService.run s ((r :: rest).map UserService.Event.auth401 ++
      [UserService.Event.refreshOk newTok]) =
      { s with token := some newTok,
               resolved := s.resolved
                 ++ (s.refreshSubscribers ++ rest).map
                     (fun q => (q.id, UserService.Outcome.replayed newTok))
                 ++ [(r.id, UserService.Outcome.replayed newTok)],
               refreshSubscribers := [],
               isRefreshing := false,
               inFlightRequest := none,
               refreshCalls := s.refreshCalls + 1 } := by
    rw [UserService.run_append, hmid, UserService.run_cons, UserService.run_nil]
    simp [UserService.step, UserService.completeRefreshOk]
  refine ⟨by rw [hmid], by rw [hmid], by rw [hfin], ?_⟩
  intro q hq
  rw [hfin]
  rcases List.mem_cons.mp hq with rfl | hq
  · exact List.mem_map.mpr ⟨(q.id, UserService.Outcome.replayed newTok),
      List.mem_append.mpr (Or.inr (List.mem_singleton.mpr rfl)), rfl⟩
  · refine List.mem_map.mpr ⟨(q.id, UserService.Outcome.replayed newTok), ?_, rfl⟩
    refine List.mem_append.mpr (Or.inl (List.mem_append.mpr (Or.inr ?_)))
    exact List.mem_map.mpr ⟨q, List.mem_append.mpr (Or.inr hq), rfl⟩

/-- Witness for C1 (amended) at a concrete instance: from `activeState`, the
two concurrent failures `req1, req2` followed by a successful refresh issue
exactly one refresh call and resolve both request 1 and request 2. -/
theorem c1_single_refresh_all_resolve_on_success_witness :
    (UserService.run UserService.activeState
        ([UserService.req1, UserService.req2].map UserService.Event.auth401 ++
          [UserService.Event.refreshOk "tok1"])).refreshCalls =
      UserService.activeState.refreshCalls + 1 ∧
    (1 : Nat) ∈ (UserService.run UserService.activeState
        ([UserService.req1, UserService.req2].map UserService.Event.auth401 ++
          [UserService.Event.refreshOk "tok1"])).resolved.map Prod.fst ∧
    (2 : Nat) ∈ (UserService.run UserService.activeState
        ([UserService.req1, UserService.req2].map UserService.Event.auth401 ++
          [UserService.Event.refreshOk "tok1"])).resolved.map Prod.fst := by
  have h := c1_single_refresh_all_resolve_on_success UserService.activeState
    UserService.req1 [UserService.req2] "tok0" "tok1" rfl rfl rfl (by decide)
  exact ⟨h.2.2.1, h.2.2.2 UserService.req1 (by decide), h.2.2.2 UserService.req2 (by decide)⟩

/-- C1 counterexample: two concurrent fresh failures from an `Active` state,
then the single refresh call fails.  The call has completed
(`isRefreshing = false`, `refreshCalls = 1`) but only request 1 ever
resolves: request 2's continuation is still sitting in
`refreshSubscribers` and its promise is never settled — refuting "all N
requests eventually resolve (success or failure) after that single call
completes". -/
theorem c1_counterexample_failed_refresh_leaves_request_unresolved :
    UserService.run UserService.activeState
        [UserService.Event.auth401 UserService.req1,
         UserService.Event.auth401 UserService.req2,
         UserService.Event.refreshFail] =
      { isRefreshing := false,
        refreshSubscribers := [UserService.req2],
        token := none,
        inFlightRequest := none,
        refreshCalls := 1,
        resolved := [(1, UserService.Outcome.rejected)] } := rfl

/-- C2, evaluated at the failing input: an `Active` state, request 11
initiates a refresh, request 12 is queued while it is in flight, and the
refresh call fails.  The code does clear the persisted credential
(`token = none`) and rejects the initiating caller, as the claim requires —
but the continuation queued for request 12 is never invoked: it remains in
`refreshSubscribers` and its promise is left pending forever, instead of
being rejected with `SessionExpired`.  The catch block of
`setupInterceptors` resets `isRefreshing` and removes the token without
draining `refreshSubscribers`. -/
theorem c2_failed_refresh_never_rejects_queued_continuations :
    UserService.run
        { isRefreshing := false, refreshSubscribers := [], token := some "tokA",
          inFlightRequest := none, refreshCalls := 0, resolved := [] }
        [UserService.Event.auth401 { id := 11, _retry := false, auth := none },
         UserService.Event.auth401 { id := 12, _retry := false, auth := none },
         UserService.Event.refreshFail] =
      { isRefreshing := false,
        refreshSubscribers := [{ id := 12, _retry := false, auth := none }],
        token := none,
        inFlightRequest := none,
        refreshCalls := 1,
        resolved := [(11, UserService.Outcome.rejected)] } := rfl

/-- C3 (amended): the refresh-initiating request is one-shot — its `_retry`
flag is set before it is requeued behind the refresh call, and any request
whose `_retry` flag is set falls through the interceptor's 401 branch, so a
second authentication failure on it is surfaced to the caller with no
further refresh, enqueue or retry.  The unamended claim — that EVERY request
carries the one-shot flag before requeuing — fails for requests queued while
a refresh is in flight, see the counterexample. -/
theorem c3_initiating_request_one_shot
    (s : UserService.CoordState) (r q : UserService.Request) (t : String)
    (hIdle : s.isRefreshing = false) (hTok : s.token = some t)
    (hr : r._retry = false) (hq : q._retry = true) :
    (UserService.handle401 s r).inFlightRequest = some { r with _retry := true } ∧
    UserService.handle401 s q =
      { s with resolved := s.resolved ++ [(q.id, UserService.Outcome.surfaced)] } := by
  constructor
  · rw [UserService.handle401_initiate s r t hIdle hTok hr]
  · simp [UserService.handle401, hq]

/-- Witness for C3 (amended): in `activeState`, request 1 is requeued with
its `_retry` flag set, and a 401 on an already-retried request (id 7) is
surfaced without touching the refresh machinery. -/
theorem c3_initiating_request_one_shot_witness :
    (UserService.handle401 UserService.activeState UserService.req1).inFlightRequest =
      some { UserService.req1 with _retry := true } ∧
    UserService.handle401 UserService.activeState
        { id := 7, _retry := true, auth := none } =
      { UserService.activeState with
          resolved := [(7, UserService.Outcome.surfaced)] } :=
  c3_initiating_request_one_shot UserService.activeState UserService.req1
    { id := 7, _retry := true, auth := none } "tok0" rfl rfl rfl rfl

/-- C3 counterexample: request 1 initiates a refresh, request 2 is queued;
the refresh succeeds and request 2 is replayed carrying the new token — but
its `_retry` flag was never set (only the initiating request's was).  When
the replayed request 2 fails authentication again, the interceptor does not
surface the error: it starts a second refresh cycle (`refreshCalls = 2`,
request 2 requeued as the new in-flight request) — a third attempt for
request 2, and no `(2, surfaced)` outcome anywhere in `resolved`. -/
theorem c3_counterexample_queued_request_retried_again :
    UserService.run UserService.activeState
        [UserService.Event.auth401 UserService.req1,
         UserService.Event.auth401 UserService.req2,
         UserService.Event.refreshOk "tok1",
         UserService.Event.auth401
           { UserService.req2 with auth := some ("Bearer " ++ "tok1") }] =
      { isRefreshing := true,
        refreshSubscribers := [],
        token := some "tok1",
        inFlightRequest := some { id := 2, _retry := true, auth := some "Bearer tok1" },
        refreshCalls := 2,
        resolved := [(2, UserService.Outcome.replayed "tok1"),
                     (1, UserService.Outcome.replayed "tok1")] } := rfl

/-- C4: while a refresh is in flight, any further fresh failures join the
queue in arrival order; when the refresh resolves successfully, every queued
request is replayed with the new access token (never the old one), and the
replays are issued in arrival order (the previously queued requests, then
the late arrivals, each paired with `Outcome.replayed newTok`); completion
order of the independent replays is outside the model.  The initiating
request is replayed with the new token as well, after the queue. -/
theorem c4_queued_requests_replayed_with_new_token_in_order
    (s : UserService.CoordState) (init : UserService.Request)
    (reqs : List UserService.Request) (newTok : String)
    (hRefr : s.isRefreshing = true) (hIn : s.inFlightRequest = some init)
    (hFresh : ∀ q ∈ reqs, q._retry = false) :
    UserService.run s (reqs.map UserService.Event.auth401 ++
        [UserService.Event.refreshOk newTok]) =
      { s with token := some newTok,
               resolved := s.resolved
                 ++ (s.refreshSubscribers ++ reqs).map
                     (fun q => (q.id, UserService.Outcome.replayed newTok))
                 ++ [(init.id, UserService.Outcome.replayed newTok)],
               refreshSubscribers := [],
               isRefreshing := false,
               inFlightRequest := none } := by
  rw [UserService.run_append, UserService.run_enqueue s reqs hRefr hFresh,
    UserService.run_cons, UserService.run_nil]
  simp [UserService.step, UserService.completeRefreshOk, hIn]

/-- Witness for C4 at a concrete instance: with request 2 already queued
behind request 1's refresh, a late request 3 joins the queue; on success
with token "tok9" the replays are `(2, tok9), (3, tok9)` — queue order, new
token — followed by the initiator `(1, tok9)`. -/
theorem c4_queued_requests_replayed_witness :
    UserService.run
        { isRefreshing := true, refreshSubscribers := [UserService.req2],
          token := some "tok0",
          inFlightRequest := some { id := 1, _retry := true, auth := none },
          refreshCalls := 1, resolved := [] }
        ([{ id := 3, _retry := false, auth := none }].map UserService.Event.auth401 ++
          [UserService.Event.refreshOk "tok9"]) =
      { isRefreshing := false,
        refreshSubscribers := [],
        token := some "tok9",
        inFlightRequest := none,
        refreshCalls := 1,
        resolved := [(2, UserService.Outcome.replayed "tok9"),
                     (3, UserService.Outcome.replayed "tok9"),
                     (1, UserService.Outcome.replayed "tok9")] } :=
  c4_queued_requests_replayed_with_new_token_in_order
    { isRefreshing := true, refreshSubscribers := [UserService.req2],
      token := some "tok0",
      inFlightRequest := some { id := 1, _retry := true, auth := none },
      refreshCalls := 1, resolved := [] }
    { id := 1, _retry := true, auth := none }
    [{ id := 3, _retry := false, auth := none }] "tok9" rfl rfl (by decide)

/-- C5: `logout()` always results in `NoSession`: for every starting state
the local session data (stored tokens, user identity, authenticated flag)
is cleared, whether the best-effort server-side invalidation call succeeds
or fails/times out (`b`); the customer-portal `logout` likewise always
clears `user` and `token`. -/
theorem c5_logout_always_results_in_noSession (b : Bool)
    (s : AdminAuth.AdminState) (c : CustomerAuth.AuthState) :
    (AdminAuth.logout b s).adminToken = none ∧
    (AdminAuth.logout b s).refreshTokenStored = none ∧
    (AdminAuth.logout b s).adminUser = none ∧
    (AdminAuth.logout b s).isAuthenticated = false ∧
    (CustomerAuth.logout c).token = none ∧
    (CustomerAuth.logout c).user = none :=
  ⟨rfl, rfl, rfl, rfl, rfl, rfl⟩

/-- C6: `attachCredential` is a pure total function on the outgoing request:
with a stored token the request interceptor returns the request with the
current access token added as a `Bearer` authorization header and every
other field unchanged (the `with`-update touches only `auth`); with no
stored session the request is returned unchanged, i.e. sent
unauthenticated.  Being a total Lean function, it has no failure modes. -/
theorem c6_requestInterceptor_attaches_credential
    (cfg : UserService.Request) (t : String) :
    UserService.requestInterceptor (some t) cfg =
      { cfg with auth := some ("Bearer " ++ t) } ∧
    UserService.requestInterceptor none cfg = cfg :=
  ⟨rfl, rfl⟩

/-- C7: `expiresInSeconds()` (the value `checkTokenExpiration` computes)
returns `none` exactly when there is no session or the access token cannot
be decoded (`tok.bind decodedExp = none` covers both), any returned value is
never negative (clamped at 0), and on a decodable token with expiry claim
`exp` it returns the remaining whole seconds
`max 0 ((exp * 1000 - now) / 1000)` (floor division, as `Math.floor`). -/
theorem c7_expiresInSeconds_clamped_or_none
    (tok : Option CustomerAuth.JwtToken) (now exp : Int) :
    (CustomerAuth.checkTokenExpiration tok now = none ↔
      tok.bind CustomerAuth.JwtToken.decodedExp = none) ∧
    0 ≤ (CustomerAuth.checkTokenExpiration tok now).getD 0 ∧
    CustomerAuth.checkTokenExpiration (some { decodedExp := some exp }) now =
      some (max 0 ((exp * 1000 - now).fdiv 1000)) := by
  refine ⟨?_, ?_, ?_⟩
  · cases tok with
    | none => simp [CustomerAuth.checkTokenExpiration]
    | some t =>
        cases h : t.decodedExp <;>
          simp [CustomerAuth.checkTokenExpiration, h]
  · cases tok with
    | none => simp [CustomerAuth.checkTokenExpiration]
    | some t =>
        cases h : t.decodedExp with
        | none => simp [CustomerAuth.checkTokenExpiration, h]
        | some e =>
            simp only [CustomerAuth.checkTokenExpiration, h, Option.getD_some]
            generalize (e * 1000 - now).fdiv 1000 = r
            split <;> omega
  · simp only [CustomerAuth.checkTokenExpiration]
    generalize hr : (exp * 1000 - now).fdiv 1000 = r
    congr 1
    split <;> omega

/-- C8 (amended): `login` on success installs the new session — `user` and
`token` set, `error` cleared, `true` returned — and on failure leaves `user`
and `token` untouched (a `NoSession` state stays `NoSession`), returning
`false` with `error` set to the surfaced message string
(`error.response?.data?.message || "Login failed"`).  The unamended claim's
"typed error distinguishing InvalidCredentials, NetworkError and
ServerError" does not hold, see the counterexample. -/
theorem c8_login_success_installs_failure_leaves_state
    (tok : String) (u : CustomerAuth.User) (e : CustomerAuth.AxiosError)
    (s : CustomerAuth.AuthState) :
    CustomerAuth.login (CustomerAuth.LoginResult.ok tok u) s =
      ({ user := some u, token := some tok, error := none }, true) ∧
    (CustomerAuth.login (CustomerAuth.LoginResult.fail e) s).1.token = s.token ∧
    (CustomerAuth.login (CustomerAuth.LoginResult.fail e) s).1.user = s.user ∧
    (CustomerAuth.login (CustomerAuth.LoginResult.fail e) s).2 = false ∧
    (CustomerAuth.login (CustomerAuth.LoginResult.fail e) s).1.error =
      some (CustomerAuth.loginErrorMessage e) :=
  ⟨rfl, rfl, rfl, rfl, rfl⟩

/-- C8 counterexample: a transport failure (no response at all — a
NetworkError) and a server-side 500 with no message body (a ServerError)
drive `login` to the exact same result, with the same untyped message string
"Login failed" — so the failure value cannot distinguish
`InvalidCredentials`, `NetworkError` and `ServerError`, refuting the "typed
error" part of the claim. -/
theorem c8_counterexample_error_not_typed :
    CustomerAuth.login
        (CustomerAuth.LoginResult.fail { response := none })
        CustomerAuth.noSession =
      CustomerAuth.login
        (CustomerAuth.LoginResult.fail
          { response := some { status := 500, message := none } })
        CustomerAuth.noSession ∧
    (CustomerAuth.login (CustomerAuth.LoginResult.fail { response := none })
        CustomerAuth.noSession).1.error = some "Login failed" :=
  ⟨rfl, rfl⟩

/-- C9: in the restaurant-portal `UserService.refreshToken`, when the
refresh endpoint fails (`none`) but a subsequent `getCurrentUser` with the
old access token succeeds (`true`), the method resolves successfully with
the old token unchanged — so a failed refresh endpoint does not necessarily
surface an error (nor, in the interceptor's success path, clear the
session).  Only when the fallback also fails is the refresh error
rethrown. -/
theorem c9_refreshToken_fallback_returns_old_token (oldTok : String) :
    UserService.refreshToken none true oldTok = some oldTok ∧
    UserService.refreshToken none false oldTok = none :=
  ⟨rfl, rfl⟩

/-- C10: in the customer portal, `isAuthenticated` is `true` exactly when
both a token and a loaded user profile are present; on start-up with a
persisted token but no profile the client is not authenticated; `loadUser`
on a successful `GET /auth/me` installs the profile (after which
`isAuthenticated` is `true`), and on a failed fetch removes the persisted
token, returning the state to `NoSession`. -/
theorem c10_isAuthenticated_iff_token_and_user
    (t : String) (u : CustomerAuth.User) (s : CustomerAuth.AuthState) :
    (CustomerAuth.isAuthenticated s = true ↔
      s.token.isSome = true ∧ s.user.isSome = true) ∧
    CustomerAuth.isAuthenticated
      { user := none, token := some t, error := none } = false ∧
    CustomerAuth.loadUser (some u)
        { user := none, token := some t, error := none } =
      { user := some u, token := some t, error := none } ∧
    CustomerAuth.isAuthenticated
      (CustomerAuth.loadUser (some u)
        { user := none, token := some t, error := none }) = true ∧
    CustomerAuth.loadUser none
        { user := none, token := some t, error := none } =
      { user := none, token := none, error := none } := by
  refine ⟨?_, rfl, rfl, rfl, rfl⟩
  simp [CustomerAuth.isAuthenticated, Bool.and_eq_true]
